import Mathlib

/-!
# Slack notifier: aggregation of build events for one commit

A shallow embedding of `slack/main.go`: the stored record type, the merge done by
`getStoredBuild`, the rendering of `buildAttachmentMessageOption`, the completion check of
`deleteIfDone`, and the control flow of `SendNotification`.

Conventions of the embedding.

* A Go `map[string]V` is the list of its entries; a `nil` map is `none`.  Reading a nil map
  (indexing, `range`) behaves like reading an empty one, assigning into it panics.
* The values of the builds map are pointers `*cbpb.Build`.  A record as `json.Unmarshal`
  leaves it in memory is a `storedBuildPtr`, whose entries may be the nil pointer (JSON
  `null`); a `storedBuild` is a record all of whose entries point to builds.  Reading a field
  through a nil pointer panics.
* The order in which `range` visits a map is not fixed by Go.  Every loop over a map takes
  the order as a `RangeOrder`, a function that permutes the entries.
* Calls to collaborators (object store, message channel, logger) are recorded as a list of
  `Event`s in program order; what the collaborators answer is given by a `World`.
* A Go function that may panic returns an `Outcome`.
-/

namespace SlackNotifier

/-! ## Constants -/

def storagePathPrefixf : String := "messages/%s"
def repoNameSub : String := "REPO_NAME"
def branchNameSub : String := "BRANCH_NAME"
def commitShortShaSub : String := "SHORT_SHA"
def commitShaSub : String := "COMMIT_SHA"
def commitMsgSub : String := "_COMMIT_MESSAGE"
def commitURLSub : String := "_COMMIT_URL"
def commitAuthorSub : String := "_COMMIT_AUTHOR"

/-! ## Data model -/

/-- The build status enumeration `cbpb.Build_Status` of the Cloud Build API. -/
inductive Build_Status where
  | STATUS_UNKNOWN
  | PENDING
  | QUEUED
  | WORKING
  | SUCCESS
  | FAILURE
  | INTERNAL_ERROR
  | TIMEOUT
  | CANCELLED
  | EXPIRED
deriving DecidableEq, Repr

/-- The name of a status, as `%s` and `%q` print it. -/
def Build_Status.String : Build_Status → String
  | .STATUS_UNKNOWN => "STATUS_UNKNOWN"
  | .PENDING => "PENDING"
  | .QUEUED => "QUEUED"
  | .WORKING => "WORKING"
  | .SUCCESS => "SUCCESS"
  | .FAILURE => "FAILURE"
  | .INTERNAL_ERROR => "INTERNAL_ERROR"
  | .TIMEOUT => "TIMEOUT"
  | .CANCELLED => "CANCELLED"
  | .EXPIRED => "EXPIRED"

/-- The fields of `cbpb.Build` that the notifier reads. -/
structure Build where
  Id : String
  ProjectId : String
  Status : Build_Status
  LogUrl : String
  Substitutions : List (String × String)
deriving DecidableEq, Repr

/-- The entries of a `map[string]*cbpb.Build`. -/
abbrev BuildMap : Type := List (String × Build)

/-- The record kept in cloud storage for one commit: `storedBuild`, when every entry of its
map points to a build.  `Build = none` is the nil map of the zero value `storedBuild{}`. -/
structure storedBuild where
  Timestamp : String
  Build : Option BuildMap
deriving DecidableEq, Repr

/-- The zero value `storedBuild{}`. -/
def storedBuild.zero : storedBuild := { Timestamp := "", Build := none }

/-- The entries a `range` over `sb.Build` goes through; none for a nil map. -/
def storedBuild.entries (sb : storedBuild) : BuildMap := sb.Build.getD []

/-- The entries of a `map[string]*cbpb.Build` in memory: `none` is the nil pointer. -/
abbrev PtrMap : Type := List (String × Option Build)

/-- A value of type `storedBuild` in memory: the entries of its map may be nil pointers. -/
structure storedBuildPtr where
  Timestamp : String
  Build : Option PtrMap
deriving DecidableEq, Repr

/-- The zero value `storedBuild{}` in memory. -/
def storedBuildPtr.zero : storedBuildPtr := { Timestamp := "", Build := none }

/-- The builds the entries point to; `none` when one of the entries is the nil pointer. -/
def derefAll : PtrMap → Option BuildMap
  | [] => some []
  | (k, some b) :: rest => (derefAll rest).map fun m => (k, b) :: m
  | (_, none) :: _ => none

/-- The record in memory read as a record of builds; `none` when an entry of its map is the
nil pointer.  The loop of `buildAttachmentMessageOption` reads `build.Substitutions` of every
entry and never leaves early, so on such a record it panics, in whatever order it visits. -/
def storedBuildPtr.deref (p : storedBuildPtr) : Option storedBuild :=
  match p.Build with
  | none => some { Timestamp := p.Timestamp, Build := none }
  | some pm => (derefAll pm).map fun m => { Timestamp := p.Timestamp, Build := some m }

/-- A record of builds as it lies in memory. -/
def storedBuild.toPtr (sb : storedBuild) : storedBuildPtr :=
  { Timestamp := sb.Timestamp,
    Build := sb.Build.map fun m => m.map fun e => (e.1, some e.2) }

/-- The message of the panic raised by reading a field through a nil pointer. -/
def nilDereference : String := "invalid memory address or nil pointer dereference"

/-- The text and color of `slack.Attachment`. -/
structure Attachment where
  Text : String
  Color : String
deriving DecidableEq, Repr

/-- An order in which `range` may visit the entries of a map. -/
structure RangeOrder where
  visit : BuildMap → BuildMap
  perm : ∀ m, (visit m).Perm m

/-- The order that visits the entries as listed. -/
def RangeOrder.listed : RangeOrder := ⟨fun m => m, fun m => List.Perm.refl m⟩

/-- The order that visits the entries last to first. -/
def RangeOrder.reversed : RangeOrder := ⟨List.reverse, fun m => List.reverse_perm m⟩

/-! ## Go map operations -/

/-- The assignment `m[k] = v`: the entry under `k` is replaced, or added when there is none. -/
def mapAssign {V : Type} (m : List (String × V)) (k : String) (v : V) : List (String × V) :=
  m.filter (fun e => !(e.1 == k)) ++ [(k, v)]

/-- The indexing `m[k]` with the comma-ok form. -/
def mapIndex {V : Type} (m : List (String × V)) (k : String) : Option V :=
  m.lookup k

/-! ## buildAttachmentMessageOption -/

/-- The local variables of the loop in `buildAttachmentMessageOption`. -/
structure scanState where
  buildInfo : List (String × String)
  buildLogUrl : String
  buildStatus : String
  buildProjectId : String
deriving DecidableEq, Repr

/-- The default values for the build info fields. -/
def defaultBuildInfo : List (String × String) :=
  [ (repoNameSub, "UNKNOWN_REPO"),
    (branchNameSub, "UNKNOWN_BRANCH"),
    (commitShortShaSub, "UNKNOWN_COMMIT_SHA"),
    (commitMsgSub, "UNKNOWN_COMMIT_MESSAGE"),
    (commitURLSub, "UNKNOWN_COMMIT_URL"),
    (commitAuthorSub, "UNKNOWN_COMMIT_AUTHOR") ]

/-- The variables before the loop.  `buildStatus` is declared as the string `""`; it then
holds the name of the status assigned to it. -/
def scanInit : scanState :=
  { buildInfo := defaultBuildInfo, buildLogUrl := "", buildStatus := "", buildProjectId := "" }

/-- The inner loop: every key of `buildInfo` that the build has a substitution for takes the
value of the build. -/
def updateBuildInfo (buildInfo : List (String × String)) (subs : List (String × String)) :
    List (String × String) :=
  buildInfo.map fun kv =>
    match mapIndex subs kv.1 with
    | some val => (kv.1, val)
    | none => kv

/-- One iteration of the loop over the builds.  The `break` of the `switch` on the status
ends the `switch` statement, not the enclosing `for`: both arms continue with the next build. -/
def visitBuild (st : scanState) (build : Build) : scanState :=
  let st1 : scanState :=
    { buildInfo := updateBuildInfo st.buildInfo build.Substitutions,
      buildLogUrl := build.LogUrl,
      buildStatus := build.Status.String,
      buildProjectId := build.ProjectId }
  match build.Status with
  | .FAILURE | .TIMEOUT | .INTERNAL_ERROR => st1
  | _ => st1

/-- The loop over the builds in the order they are visited. -/
def scanBuilds (visited : List Build) : scanState :=
  visited.foldl visitBuild scanInit

/-- The read `buildInfo[key]`; a missing key reads as the empty string. -/
def infoAt (buildInfo : List (String × String)) (key : String) : String :=
  (mapIndex buildInfo key).getD ""

/-- The message text. -/
def messageText (st : scanState) (logURL : String) : String :=
  st.buildStatus ++ ": :" ++ infoAt st.buildInfo repoNameSub ++ ": " ++
    infoAt st.buildInfo repoNameSub ++ " (" ++ st.buildProjectId ++ ") <" ++ logURL ++
    "|View Build>\n*Branch*: " ++ infoAt st.buildInfo branchNameSub ++ " *Author*: " ++
    infoAt st.buildInfo commitAuthorSub ++ " \n<" ++ infoAt st.buildInfo commitURLSub ++
    "|Commit> *" ++ infoAt st.buildInfo commitShortShaSub ++ "*: " ++
    infoAt st.buildInfo commitMsgSub

/-- The color chosen by the `switch` on `buildStatus`. -/
def messageColor (buildStatus : String) : String :=
  if buildStatus = Build_Status.SUCCESS.String then "good"
  else if buildStatus = Build_Status.FAILURE.String
      ∨ buildStatus = Build_Status.INTERNAL_ERROR.String
      ∨ buildStatus = Build_Status.TIMEOUT.String then "danger"
  else "warning"

/-- The part of `buildAttachmentMessageOption` after the loop.  `addUTMParams` is
`notifiers.AddUTMParams(_, notifiers.ChatMedium)`, which is not part of this package. -/
def renderState (addUTMParams : String → Except String String) (st : scanState) : Attachment :=
  let logURL : String :=
    match addUTMParams st.buildLogUrl with
    | .ok u => u
    | .error _ => st.buildLogUrl
  { Text := messageText st logURL, Color := messageColor st.buildStatus }

/-- The attachment built from the record `sb` when `range` visits the builds in `order`. -/
def buildAttachmentMessageOption (addUTMParams : String → Except String String)
    (order : RangeOrder) (sb : storedBuild) : Attachment :=
  renderState addUTMParams (scanBuilds ((order.visit sb.entries).map Prod.snd))

/-! ## Collaborators -/

/-- What a Go function hands back: it returns, or it panics. -/
inductive Outcome (α : Type) where
  | returned (a : α)
  | panicked (msg : String)
deriving DecidableEq, Repr

/-- The calls made to the collaborators, in program order. -/
inductive Event where
  /-- The call `log.Infof(format, args...)` -/
  | log (format : String) (args : List String)
  /-- The call `sc.Bucket(bucket).Object(path).NewReader(..)` -/
  | newReader (bucket path : String)
  /-- The call `io.ReadAll(reader)` on the reader of that object -/
  | readAll (bucket path : String)
  /-- The call `fmt.Fprint(writer, string(b))` on the writer of that object, `b` being the
  JSON encoding of `sb` -/
  | fprint (bucket path : String) (sb : storedBuild)
  /-- The deferred call `writer.Close()` -/
  | closeWriter (bucket path : String)
  /-- The call `sc.Bucket(bucket).Object(path).Delete(..)` -/
  | delete (bucket path : String)
  /-- The call `s.slackClient.PostMessage(channel, msg)` -/
  | postMessage (channel : String) (msg : Attachment)
  /-- The call `s.slackClient.UpdateMessage(channel, timestamp, msg)` -/
  | updateMessage (channel timestamp : String) (msg : Attachment)
deriving DecidableEq, Repr

/-- Whether the event is a call to the message channel. -/
def Event.isMessageCall : Event → Bool
  | .postMessage _ _ => true
  | .updateMessage _ _ _ => true
  | _ => false

/-- Whether the event is a read of, a write to, or a delete in the object store. -/
def Event.isStoreCall : Event → Bool
  | .newReader _ _ => true
  | .readAll _ _ => true
  | .fprint _ _ _ => true
  | .closeWriter _ _ => true
  | .delete _ _ => true
  | _ => false

/-- Whether the event is a delete in the object store. -/
def Event.isDelete : Event → Bool
  | .delete _ _ => true
  | _ => false

/-- Whether the event writes a record to the object store. -/
def Event.isWrite : Event → Bool
  | .fprint _ _ _ => true
  | _ => false

/-- The fields of `slackNotifier` used after `SetUp`; the Slack client and the predicate
of the filter are collaborators. -/
structure slackNotifier where
  filter : Build → Bool
  webhookURL : String
  notificationChannel : String
  storageBucket : String

/-- The answers of the collaborators during one invocation.  An error is the text of
`err.Error()`; `none` is a nil error. -/
structure World where
  /-- The error of `storage.NewClient` -/
  newClient : Option String
  /-- The result of `NewReader` on bucket and path: its error, or what `io.ReadAll` then gives
  (an error, or the bytes of the object) -/
  newReader : String → String → Except String (Except String String)
  /-- The call `json.Unmarshal(b, &sb)`: the value left in `sb` and the error -/
  unmarshal : String → storedBuildPtr → storedBuildPtr × Option String
  /-- The error of `json.Marshal(sb)` -/
  marshal : storedBuild → Option String
  /-- The error of `fmt.Fprint` on the writer of bucket and path -/
  fprint : String → String → storedBuild → Option String
  /-- The error of `writer.Close()` -/
  closeWriter : String → String → Option String
  /-- The error of `Delete` on bucket and path -/
  delete : String → String → Option String
  /-- The timestamp and error of `PostMessage` -/
  postMessage : String → Attachment → String × Option String
  /-- The error of `UpdateMessage` on channel, timestamp and message -/
  updateMessage : String → String → Attachment → Option String
  /-- The function `notifiers.AddUTMParams(_, notifiers.ChatMedium)` -/
  addUTMParams : String → Except String String
  /-- The order of the `range` in `buildAttachmentMessageOption` -/
  renderOrder : RangeOrder
  /-- The order of the `range` in `deleteIfDone` -/
  deleteOrder : RangeOrder

/-! ## The notifier -/

set_option linter.unusedVariables false

/-- The storage path of a commit: `fmt.Sprintf(storagePathPrefixf, commitSha)`, the format
`"messages/%s"` with the commit in the place of `%s`. -/
def getStoragePath (commitSha : String) : String :=
  "messages/" ++ commitSha

/-- The body of `getStoredBuild` up to its `return sb`: the events and the value of `sb` at
the return. -/
def getStoredBuild_body (s : slackNotifier) (w : World) (commitSha : String) :
    List Event × storedBuildPtr :=
  let sb := storedBuildPtr.zero
  let path := getStoragePath commitSha
  match w.newReader s.storageBucket path with
  | .error e =>
    ([.newReader s.storageBucket path,
      .log "Unable to read stored file (%s) in bucket (%s) : %q" [s.storageBucket, path, e]], sb)
  | .ok (.error e) =>
    ([.newReader s.storageBucket path, .readAll s.storageBucket path,
      .log "Unable to read from file : %q" [e]], sb)
  | .ok (.ok b) =>
    match w.unmarshal b sb with
    | (sb1, some e) =>
      ([.newReader s.storageBucket path, .readAll s.storageBucket path,
        .log "Unable to unmarshal json : %q" [e]], sb1)
    | (sb1, none) =>
      ([.newReader s.storageBucket path, .readAll s.storageBucket path], sb1)

/-- The deferred function of `getStoredBuild`: `sb.Build[build.Id] = build`.  It runs after
every `return sb`; the returned copy shares the map, so the assignment shows in the result.
Assigning into the nil map panics. -/
def getStoredBuild_deferred (sb : storedBuildPtr) (build : Build) : Outcome storedBuildPtr :=
  match sb.Build with
  | none => .panicked "assignment to entry in nil map"
  | some m =>
    .returned { Timestamp := sb.Timestamp, Build := some (mapAssign m build.Id (some build)) }

/-- The function `getStoredBuild`: it fetches the record of the commit and adds the latest
build. -/
def getStoredBuild (s : slackNotifier) (w : World) (build : Build) (commitSha : String) :
    List Event × Outcome storedBuildPtr :=
  let r := getStoredBuild_body s w commitSha
  (r.1, getStoredBuild_deferred r.2 build)

/-- The function `updateSlackMessage` on a record of builds. -/
def updateSlackMessage (s : slackNotifier) (w : World) (sb : storedBuild) :
    List Event × Option String :=
  let attachmentMsgOpt := buildAttachmentMessageOption w.addUTMParams w.renderOrder sb
  match w.updateMessage s.notificationChannel sb.Timestamp attachmentMsgOpt with
  | some e =>
    ([.updateMessage s.notificationChannel sb.Timestamp attachmentMsgOpt,
      .log "Unable to update slack message : %q" [e]], some e)
  | none => ([.updateMessage s.notificationChannel sb.Timestamp attachmentMsgOpt], none)

/-- The deferred function of `updateCloudStoreFile`: close the writer, log a failure. -/
def updateCloudStoreFile_deferred (s : slackNotifier) (w : World) (path : String) :
    List Event :=
  match w.closeWriter s.storageBucket path with
  | some e => [.closeWriter s.storageBucket path, .log "Error closing the writer: %q" [e]]
  | none => [.closeWriter s.storageBucket path]

/-- The function `updateCloudStoreFile`.  The record encoded and written is `sb`; the
parameter `timestamp` is not read.  The error returned is the one of `json.Marshal`: the
error of `fmt.Fprint` lives in the scope of its `if` statement. -/
def updateCloudStoreFile (s : slackNotifier) (w : World) (commitSha timestamp : String)
    (sb : storedBuild) : List Event × Option String :=
  let path := getStoragePath commitSha
  match w.marshal sb with
  | some e =>
    ([.log "Unable to marshal : %q" [e]] ++ updateCloudStoreFile_deferred s w path, some e)
  | none =>
    match w.fprint s.storageBucket path sb with
    | some e =>
      ([.fprint s.storageBucket path sb, .log "Unable to write to cloud storage : %q" [e]]
        ++ updateCloudStoreFile_deferred s w path, none)
    | none => ([.fprint s.storageBucket path sb] ++ updateCloudStoreFile_deferred s w path, none)

/-- The function `deleteIfDone`: no delete while one of the builds is still in progress. -/
def deleteIfDone (s : slackNotifier) (w : World) (sb : storedBuild) (commitSha : String) :
    List Event × Option String :=
  if (w.deleteOrder.visit sb.entries).any (fun e => e.2.Status = Build_Status.WORKING) then
    ([], none)
  else
    let path := getStoragePath commitSha
    match w.delete s.storageBucket path with
    | some e => ([.delete s.storageBucket path, .log "Error deleting the object: %q" [e]], some e)
    | none => ([.delete s.storageBucket path], none)

/-- The function `SendNotification`: the events it causes and what it returns (`none` is a
nil error).  In both branches the first use of the record is the call of
`buildAttachmentMessageOption` (directly, or as the first statement of `updateSlackMessage`),
which panics on a nil entry before any call to a collaborator; past it the record is a
record of builds. -/
def SendNotification (s : slackNotifier) (w : World) (build : Build) :
    List Event × Outcome (Option String) :=
  if !s.filter build then ([], .returned none)
  else
    match w.newClient with
    | some e => ([.log "Unable to create storage client : %q" [e]], .returned (some e))
    | none =>
      match mapIndex build.Substitutions commitShaSub with
      | none => ([], .returned (some ("Unknown " ++ commitShaSub)))
      | some commitSha =>
        let ev0 : List Event :=
          [.log "sending Slack webhook for Build %q (status: %q)" [build.Id, build.Status.String]]
        match getStoredBuild s w build commitSha with
        | (ev1, .panicked msg) => (ev0 ++ ev1, .panicked msg)
        | (ev1, .returned p) =>
          if p.Timestamp = "" then
            match p.deref with
            | none => (ev0 ++ ev1, .panicked nilDereference)
            | some sb =>
              let attachmentMsgOpt :=
                buildAttachmentMessageOption w.addUTMParams w.renderOrder sb
              let posted := w.postMessage s.notificationChannel attachmentMsgOpt
              let ev2 : List Event :=
                match posted.2 with
                | some e =>
                  [.postMessage s.notificationChannel attachmentMsgOpt,
                    .log "Unable to post initial build message to slack : %q" [e]]
                | none => [.postMessage s.notificationChannel attachmentMsgOpt]
              let stored := updateCloudStoreFile s w commitSha posted.1 sb
              (ev0 ++ ev1 ++ ev2 ++ stored.1, .returned stored.2)
          else
            match p.deref with
            | none => (ev0 ++ ev1, .panicked nilDereference)
            | some sb =>
              let updated := updateSlackMessage s w sb
              let stored := updateCloudStoreFile s w commitSha sb.Timestamp sb
              match stored.2 with
              | some e => (ev0 ++ ev1 ++ updated.1 ++ stored.1, .returned (some e))
              | none =>
                let deleted := deleteIfDone s w sb commitSha
                (ev0 ++ ev1 ++ updated.1 ++ stored.1 ++ deleted.1, .returned deleted.2)

/-! ## Notions used in the statements -/

/-- The keys of the build info fields. -/
def substitutionKeys : List String := defaultBuildInfo.map Prod.fst

/-- Whether the build carries all six substitution fields shown in the message. -/
def hasAllSubstitutions (b : Build) : Bool :=
  substitutionKeys.all fun k => (mapIndex b.Substitutions k).isSome

/-- Whether the status is one of FAILURE, TIMEOUT, INTERNAL_ERROR. -/
def Build_Status.isFailing : Build_Status → Bool
  | .FAILURE | .TIMEOUT | .INTERNAL_ERROR => true
  | _ => false

/-- The value shown for a substitution key: the one of the build, or the placeholder. -/
def shown (b : Build) (key dflt : String) : String :=
  (mapIndex b.Substitutions key).getD dflt

/-! ## Data of `main_test.go` -/

/-- The build `b1` of `TestMultiRegionFailBuildAttachmentMessageOption`. -/
def failTest_b1 : Build :=
  { ProjectId := "my-project-id",
    Id := "some-build-id1",
    Status := .FAILURE,
    Substitutions :=
      [ (repoNameSub, "test-repo"),
        (branchNameSub, "test-branch"),
        (commitShortShaSub, "1234failsha"),
        (commitMsgSub, "fail message"),
        (commitURLSub, "https://some.example.com/failcommit"),
        (commitAuthorSub, "failperson") ],
    LogUrl := "https://some.example.com/log/url?foo=fail" }

/-- The build `b2` of `TestMultiRegionFailBuildAttachmentMessageOption`. -/
def failTest_b2 : Build :=
  { ProjectId := "my-project-id",
    Id := "some-build-id2",
    Status := .SUCCESS,
    Substitutions :=
      [ (repoNameSub, "test-repo"),
        (branchNameSub, "test-branch"),
        (commitShortShaSub, "1234successsha"),
        (commitMsgSub, "success message"),
        (commitURLSub, "https://some.example.com/successcommit"),
        (commitAuthorSub, "successperson") ],
    LogUrl := "https://some.example.com/log/url?foo=success" }

/-- The record `sb` of `TestMultiRegionFailBuildAttachmentMessageOption`. -/
def failTest_sb : storedBuild :=
  { Timestamp := "", Build := some [(failTest_b1.Id, failTest_b1), (failTest_b2.Id, failTest_b2)] }

/-- The build `b1` of `TestMultiRegionSuccessBuildAttachmentMessageOption`. -/
def successTest_b1 : Build :=
  { ProjectId := "my-project-id",
    Id := "some-build-id1",
    Status := .SUCCESS,
    Substitutions :=
      [ (repoNameSub, "test-repo"),
        (branchNameSub, "test-branch"),
        (commitShortShaSub, "1234fakesha1"),
        (commitMsgSub, "fake message1"),
        (commitURLSub, "https://some.example.com/fakecommit1"),
        (commitAuthorSub, "jdoe1") ],
    LogUrl := "https://some.example.com/log/url?foo=bar1" }

/-- The build `b2` of `TestMultiRegionSuccessBuildAttachmentMessageOption`. -/
def successTest_b2 : Build :=
  { ProjectId := "my-project-id",
    Id := "some-build-id2",
    Status := .SUCCESS,
    Substitutions :=
      [ (repoNameSub, "test-repo"),
        (branchNameSub, "test-branch"),
        (commitShortShaSub, "1234fakesha2"),
        (commitMsgSub, "fake message2"),
        (commitURLSub, "https://some.example.com/fakecommit2"),
        (commitAuthorSub, "jdoe2") ],
    LogUrl := "https://some.example.com/log/url?foo=bar2" }

/-- The entries of the record of `TestMultiRegionSuccessBuildAttachmentMessageOption`. -/
def successTest_entries : BuildMap :=
  [(successTest_b1.Id, successTest_b1), (successTest_b2.Id, successTest_b2)]

/-! ## Worlds used in the evaluations -/

/-- A notifier that lets every build through. -/
def testNotifier : slackNotifier :=
  { filter := fun _ => true,
    webhookURL := "https://hooks.example.com/services/T0",
    notificationChannel := "C0BUILDS",
    storageBucket := "notifier-config" }

/-- The world in which the bucket holds no record and every other collaborator succeeds. -/
def World.missing : World :=
  { newClient := none,
    newReader := fun _ _ => .error "storage: object does not exist",
    unmarshal := fun _ sb => (sb, some "unexpected end of JSON input"),
    marshal := fun _ => none,
    fprint := fun _ _ _ => none,
    closeWriter := fun _ _ => none,
    delete := fun _ _ => none,
    postMessage := fun _ _ => ("1700000000.000100", none),
    updateMessage := fun _ _ _ => none,
    addUTMParams := fun u => .ok u,
    renderOrder := RangeOrder.listed,
    deleteOrder := RangeOrder.listed }

/-- The world in which the object read decodes without error to the record `p` in memory
and every other collaborator succeeds. -/
def World.decoding (p : storedBuildPtr) : World :=
  { World.missing with
    newReader := fun _ _ => .ok (.ok "stored record"),
    unmarshal := fun _ _ => (p, none) }

/-- The world in which the object read decodes to the record of builds `sb` and every other
collaborator succeeds. -/
def World.holding (sb : storedBuild) : World :=
  World.decoding sb.toPtr

/-- An incoming build of commit `abc123` with the given id and status. -/
def incoming (id : String) (status : Build_Status) : Build :=
  { Id := id,
    ProjectId := "my-project-id",
    Status := status,
    LogUrl := "https://some.example.com/log/url",
    Substitutions := [(commitShaSub, "abc123"), (repoNameSub, "test-repo")] }

/-- Merging a list of builds one event after the other: each call of `getStoredBuild` loads
the record the previous call returned. -/
def mergeAll (s : slackNotifier) (commitSha : String) :
    storedBuildPtr → List Build → Outcome storedBuildPtr
  | sb, [] => .returned sb
  | sb, b :: rest =>
    match (getStoredBuild s (World.decoding sb) b commitSha).2 with
    | .returned sb1 => mergeAll s commitSha sb1 rest
    | .panicked msg => .panicked msg

/-- The record of builds with the timestamp of `loaded` and the builds `m`. -/
def mergedRecord (loaded : storedBuildPtr) (m : BuildMap) : storedBuild :=
  { Timestamp := loaded.Timestamp, Build := some m }

/-- The log event with which `SendNotification` announces the build. -/
def sendingEvent (build : Build) : Event :=
  .log "sending Slack webhook for Build %q (status: %q)" [build.Id, build.Status.String]

/-! # Theorems -/

/-! ## Rendering -/

theorem visit_singleton (order : RangeOrder) (e : String × Build) : order.visit [e] = [e] :=
  List.perm_singleton.mp (order.perm [e])

theorem visitBuild_eq (st : scanState) (build : Build) :
    visitBuild st build =
      { buildInfo := updateBuildInfo st.buildInfo build.Substitutions,
        buildLogUrl := build.LogUrl,
        buildStatus := build.Status.String,
        buildProjectId := build.ProjectId } := by
  unfold visitBuild
  cases build.Status <;> rfl

theorem scanBuilds_append (l : List Build) (b : Build) :
    scanBuilds (l ++ [b]) = visitBuild (scanBuilds l) b := by
  simp [scanBuilds, List.foldl_append]

theorem mapIndex_updateBuildInfo (bi subs : List (String × String)) (k : String) :
    mapIndex (updateBuildInfo bi subs) k
      = (mapIndex bi k).map fun v => (mapIndex subs k).getD v := by
  induction bi with
  | nil => rfl
  | cons kv rest ih =>
    obtain ⟨k1, v1⟩ := kv
    simp only [mapIndex, updateBuildInfo, List.map_cons] at ih ⊢
    by_cases hk : k = k1
    · subst hk
      cases hs : List.lookup k subs <;> simp [List.lookup]
    · have hne : (k == k1) = false := by simpa using hk
      cases hs : List.lookup k1 subs <;> simp [List.lookup, hne, ih]

theorem infoAt_default (b : Build) (key dflt : String)
    (h : mapIndex defaultBuildInfo key = some dflt) :
    infoAt (visitBuild scanInit b).buildInfo key = shown b key dflt := by
  simp [visitBuild_eq, infoAt, mapIndex_updateBuildInfo, scanInit, h, shown]

/-- C9: for a record holding exactly one snapshot `b` the text is the template filled with
the status, project id and log URL of `b` (the log URL decorated by `addUTMParams`, bare
when that fails) and with each substitution field of `b`, or its UNKNOWN placeholder when
`b` lacks it; the color is "good" for SUCCESS, "danger" for FAILURE, INTERNAL_ERROR and
TIMEOUT, and "warning" for every other status. -/
theorem C9_single_snapshot_message (addUTMParams : String → Except String String)
    (order : RangeOrder) (ts k : String) (b : Build) :
    (buildAttachmentMessageOption addUTMParams order { Timestamp := ts, Build := some [(k, b)] }).Text
      = b.Status.String ++ ": :" ++ shown b repoNameSub "UNKNOWN_REPO" ++ ": " ++
        shown b repoNameSub "UNKNOWN_REPO" ++ " (" ++ b.ProjectId ++ ") <" ++
        (match addUTMParams b.LogUrl with
          | .ok u => u
          | .error _ => b.LogUrl) ++
        "|View Build>\n*Branch*: " ++ shown b branchNameSub "UNKNOWN_BRANCH" ++ " *Author*: " ++
        shown b commitAuthorSub "UNKNOWN_COMMIT_AUTHOR" ++ " \n<" ++
        shown b commitURLSub "UNKNOWN_COMMIT_URL" ++ "|Commit> *" ++
        shown b commitShortShaSub "UNKNOWN_COMMIT_SHA" ++ "*: " ++
        shown b commitMsgSub "UNKNOWN_COMMIT_MESSAGE"
    ∧ (b.Status = .SUCCESS →
        (buildAttachmentMessageOption addUTMParams order
          { Timestamp := ts, Build := some [(k, b)] }).Color = "good")
    ∧ (b.Status = .FAILURE ∨ b.Status = .INTERNAL_ERROR ∨ b.Status = .TIMEOUT →
        (buildAttachmentMessageOption addUTMParams order
          { Timestamp := ts, Build := some [(k, b)] }).Color = "danger")
    ∧ (b.Status ≠ .SUCCESS ∧ b.Status ≠ .FAILURE ∧ b.Status ≠ .INTERNAL_ERROR
        ∧ b.Status ≠ .TIMEOUT →
        (buildAttachmentMessageOption addUTMParams order
          { Timestamp := ts, Build := some [(k, b)] }).Color = "warning") := by
  have hscan : buildAttachmentMessageOption addUTMParams order
      { Timestamp := ts, Build := some [(k, b)] }
      = renderState addUTMParams (visitBuild scanInit b) := by
    simp [buildAttachmentMessageOption, storedBuild.entries, visit_singleton, scanBuilds]
  rw [hscan]
  refine ⟨?_, ?_, ?_, ?_⟩
  · simp only [renderState, messageText]
    rw [infoAt_default b repoNameSub "UNKNOWN_REPO" rfl,
      infoAt_default b branchNameSub "UNKNOWN_BRANCH" rfl,
      infoAt_default b commitAuthorSub "UNKNOWN_COMMIT_AUTHOR" rfl,
      infoAt_default b commitURLSub "UNKNOWN_COMMIT_URL" rfl,
      infoAt_default b commitShortShaSub "UNKNOWN_COMMIT_SHA" rfl,
      infoAt_default b commitMsgSub "UNKNOWN_COMMIT_MESSAGE" rfl]
    simp [visitBuild_eq]
  · intro h
    simp [renderState, visitBuild_eq, h, messageColor]
  · intro h
    rcases h with h | h | h <;> simp [renderState, visitBuild_eq, h, messageColor, Build_Status.String]
  · intro h
    obtain ⟨h1, h2, h3, h4⟩ := h
    cases hs : b.Status <;> simp_all [renderState, visitBuild_eq, messageColor, Build_Status.String]

theorem mapIndex_scan_isSome (l : List Build) (k : String) :
    ∀ st : scanState, (mapIndex st.buildInfo k).isSome = true →
      (mapIndex (l.foldl visitBuild st).buildInfo k).isSome = true := by
  induction l with
  | nil => intro st h; simpa using h
  | cons b rest ih =>
    intro st h
    rw [List.foldl_cons]
    apply ih
    rw [visitBuild_eq]
    simp only [mapIndex_updateBuildInfo]
    cases hk : mapIndex st.buildInfo k with
    | none => simp [hk] at h
    | some v => simp

theorem infoAt_visit_of_subs (l : List Build) (b : Build) (k : String)
    (hd : (mapIndex defaultBuildInfo k).isSome = true)
    (hb : (mapIndex b.Substitutions k).isSome = true) :
    infoAt (visitBuild (scanBuilds l) b).buildInfo k
      = infoAt (visitBuild scanInit b).buildInfo k := by
  have hst : (mapIndex (scanBuilds l).buildInfo k).isSome = true :=
    mapIndex_scan_isSome l k scanInit hd
  rw [visitBuild_eq, visitBuild_eq]
  simp only [infoAt, mapIndex_updateBuildInfo]
  cases h1 : mapIndex b.Substitutions k with
  | none => simp [h1] at hb
  | some v =>
    cases h2 : mapIndex (scanBuilds l).buildInfo k with
    | none => simp [h2] at hst
    | some u =>
      cases h3 : mapIndex scanInit.buildInfo k with
      | none => simp [scanInit] at h3; simp [h3] at hd
      | some u0 => simp

theorem hasAllSubstitutions_key (b : Build) (h : hasAllSubstitutions b = true) (k : String)
    (hk : k ∈ substitutionKeys) : (mapIndex b.Substitutions k).isSome = true := by
  simp only [hasAllSubstitutions, List.all_eq_true] at h
  exact h k hk

theorem renderState_visit_last (addUTMParams : String → Except String String)
    (l : List Build) (b : Build) (h : hasAllSubstitutions b = true) :
    renderState addUTMParams (visitBuild (scanBuilds l) b)
      = renderState addUTMParams (visitBuild scanInit b) := by
  have key : ∀ k, k ∈ substitutionKeys →
      infoAt (visitBuild (scanBuilds l) b).buildInfo k
        = infoAt (visitBuild scanInit b).buildInfo k := by
    intro k hk
    apply infoAt_visit_of_subs l b k _ (hasAllSubstitutions_key b h k hk)
    simp only [substitutionKeys, List.mem_map] at hk
    obtain ⟨kv, hkv, rfl⟩ := hk
    revert kv
    decide
  simp only [renderState, messageText]
  rw [key repoNameSub (by decide), key branchNameSub (by decide),
    key commitAuthorSub (by decide), key commitURLSub (by decide),
    key commitShortShaSub (by decide), key commitMsgSub (by decide)]
  simp [visitBuild_eq]

/-- C10: a record of two or more snapshots that all carry the six substitution fields and
none of which is failing is rendered, whatever the order of the visit, exactly as the record
holding only the snapshot visited last. -/
theorem C10_message_of_last_visited (addUTMParams : String → Except String String)
    (order order1 : RangeOrder) (ts ts1 : String) (m : BuildMap)
    (hlen : 2 ≤ m.length)
    (hall : ∀ e ∈ m, hasAllSubstitutions e.2 = true ∧ e.2.Status.isFailing = false) :
    ∃ e ∈ m, (order.visit m).getLast? = some e ∧
      buildAttachmentMessageOption addUTMParams order { Timestamp := ts, Build := some m }
        = buildAttachmentMessageOption addUTMParams order1
            { Timestamp := ts1, Build := some [e] } := by
  have hperm := order.perm m
  have hne : order.visit m ≠ [] := by
    intro h0
    have := hperm.length_eq
    rw [h0] at this
    simp at this
    omega
  obtain ⟨l, e, hle⟩ : ∃ l e, order.visit m = l ++ [e] :=
    ⟨(order.visit m).dropLast, (order.visit m).getLast hne,
      (List.dropLast_append_getLast hne).symm⟩
  have hmem : e ∈ m := by
    apply hperm.subset
    rw [hle]
    simp
  refine ⟨e, hmem, by simp [hle], ?_⟩
  simp only [buildAttachmentMessageOption, storedBuild.entries, Option.getD_some,
    visit_singleton, hle, List.map_append, List.map_cons, List.map_nil]
  rw [scanBuilds_append]
  rw [renderState_visit_last addUTMParams _ e.2 (hall e hmem).1]
  rfl

/-- The record of the multi-region success test, visited last to first: the message is the
one of `b1` alone. -/
theorem C10_message_of_last_visited_witness :
    ∃ e ∈ successTest_entries,
      (RangeOrder.reversed.visit successTest_entries).getLast? = some e ∧
      buildAttachmentMessageOption (fun u => .ok u) RangeOrder.reversed
          { Timestamp := "", Build := some successTest_entries }
        = buildAttachmentMessageOption (fun u => .ok u) RangeOrder.listed
            { Timestamp := "", Build := some [e] } :=
  C10_message_of_last_visited (fun u => .ok u) RangeOrder.reversed RangeOrder.listed "" ""
    successTest_entries (by decide) (by decide)

/-- C1, evaluated on the record of `TestMultiRegionFailBuildAttachmentMessageOption` with the
failing build `b1` visited first and the successful build `b2` second: the loop runs on
after `b1`, and the status, log URL and project id of the message are the ones of `b2`, the
color is "good". -/
theorem C1_last_visited_overrides_failing :
    failTest_b1.Status = .FAILURE ∧ failTest_b2.Status = .SUCCESS ∧
    (RangeOrder.listed.visit failTest_sb.entries).map Prod.snd = [failTest_b1, failTest_b2] ∧
    (scanBuilds [failTest_b1, failTest_b2]).buildStatus = "SUCCESS" ∧
    (scanBuilds [failTest_b1, failTest_b2]).buildLogUrl
      = "https://some.example.com/log/url?foo=success" ∧
    (scanBuilds [failTest_b1, failTest_b2]).buildProjectId = failTest_b2.ProjectId ∧
    (buildAttachmentMessageOption (fun u => .ok u) RangeOrder.listed failTest_sb)
      = { Text := "SUCCESS: :test-repo: test-repo (my-project-id) <https://some.example.com/log/url?foo=success|View Build>\n*Branch*: test-branch *Author*: successperson \n<https://some.example.com/successcommit|Commit> *1234successsha*: success message",
          Color := "good" } := by
  refine ⟨rfl, rfl, rfl, rfl, rfl, rfl, ?_⟩
  rfl

/-! ## Completion check -/

/-- C6: `deleteIfDone` issues the store delete exactly when no snapshot of the record is
WORKING; a record into which a WORKING snapshot is inserted gets no delete; a record of
SUCCESS and FAILURE snapshots gets one. -/
theorem C6_delete_iff_none_working (s : slackNotifier) (w : World) (sb : storedBuild)
    (commitSha : String) :
    (Event.delete s.storageBucket (getStoragePath commitSha) ∈ (deleteIfDone s w sb commitSha).1
        ↔ ∀ e ∈ sb.entries, e.2.Status ≠ Build_Status.WORKING)
    ∧ ((∃ e ∈ (deleteIfDone s w sb commitSha).1, e.isDelete = true)
        ↔ ∀ e ∈ sb.entries, e.2.Status ≠ Build_Status.WORKING)
    ∧ (∀ (k : String) (b : Build), b.Status = Build_Status.WORKING →
        (deleteIfDone s w { Timestamp := sb.Timestamp, Build := some (mapAssign sb.entries k b) }
          commitSha) = ([], none))
    ∧ ((∀ e ∈ sb.entries, e.2.Status = Build_Status.SUCCESS ∨ e.2.Status = Build_Status.FAILURE) →
        Event.delete s.storageBucket (getStoragePath commitSha)
          ∈ (deleteIfDone s w sb commitSha).1) := by
  have hany : ((w.deleteOrder.visit sb.entries).any
      (fun e => decide (e.2.Status = Build_Status.WORKING)) = true)
      ↔ ∃ e ∈ sb.entries, e.2.Status = Build_Status.WORKING := by
    simp only [List.any_eq_true, decide_eq_true_eq]
    constructor
    · rintro ⟨e, he, hw⟩
      exact ⟨e, (w.deleteOrder.perm _).subset he, hw⟩
    · rintro ⟨e, he, hw⟩
      exact ⟨e, (w.deleteOrder.perm _).symm.subset he, hw⟩
  have h1 : (Event.delete s.storageBucket (getStoragePath commitSha)
        ∈ (deleteIfDone s w sb commitSha).1
        ↔ ∀ e ∈ sb.entries, e.2.Status ≠ Build_Status.WORKING) := by
    unfold deleteIfDone
    by_cases hw : ∃ e ∈ sb.entries, e.2.Status = Build_Status.WORKING
    · rw [if_pos (hany.mpr hw)]
      obtain ⟨e, he, hs⟩ := hw
      simp only [List.not_mem_nil, false_iff, not_forall]
      exact ⟨e, he, fun h => h hs⟩
    · rw [if_neg (fun h => hw (hany.mp h))]
      have hall : ∀ e ∈ sb.entries, e.2.Status ≠ Build_Status.WORKING :=
        fun e he hs => hw ⟨e, he, hs⟩
      cases hd : w.delete s.storageBucket (getStoragePath commitSha) with
      | none => simpa [hd] using fun a b hab => hall (a, b) hab
      | some err => simpa [hd] using fun a b hab => hall (a, b) hab
  have h2 : ((∃ e ∈ (deleteIfDone s w sb commitSha).1, e.isDelete = true)
        ↔ ∀ e ∈ sb.entries, e.2.Status ≠ Build_Status.WORKING) := by
    rw [← h1]
    constructor
    · rintro ⟨e, he, hdel⟩
      unfold deleteIfDone at he ⊢
      split at he
      · simp at he
      · rename_i hn
        rw [if_neg hn]
        cases hd : w.delete s.storageBucket (getStoragePath commitSha) <;> simp [hd]
    · intro h
      exact ⟨_, h, rfl⟩
  refine ⟨h1, h2, ?_, ?_⟩
  · intro k b hb
    unfold deleteIfDone
    rw [if_pos]
    simp only [List.any_eq_true, decide_eq_true_eq]
    refine ⟨(k, b), ?_, hb⟩
    apply (w.deleteOrder.perm _).symm.subset
    simp [storedBuild.entries, mapAssign]
  · intro h
    rw [h1]
    intro e he hs
    rcases h e he with h' | h' <;> rw [h'] at hs <;> cases hs

/-! ## Merge -/

theorem mapIndex_mapAssign {V : Type} (m : List (String × V)) (k : String) (v : V)
    (k1 : String) :
    mapIndex (mapAssign m k v) k1 = if k1 = k then some v else mapIndex m k1 := by
  induction m with
  | nil =>
    by_cases h : k1 = k
    · simp [mapIndex, mapAssign, List.lookup, h]
    · have hne : (k1 == k) = false := by simpa using h
      simp [mapIndex, mapAssign, List.lookup, h, hne]
  | cons e rest ih =>
    obtain ⟨ke, ve⟩ := e
    simp only [mapIndex, mapAssign] at ih ⊢
    by_cases hke : ke = k
    · subst hke
      by_cases h : k1 = ke
      · simpa [List.filter, h] using ih
      · have hne : (k1 == ke) = false := by simpa using h
        simpa [List.filter, h, List.lookup, hne] using ih
    · have hkne : (ke == k) = false := by simpa using hke
      by_cases h1 : k1 = ke
      · subst h1
        simp [List.filter, hkne, List.lookup, hke]
      · have hne : (k1 == ke) = false := by simpa using h1
        simpa [List.filter, hkne, List.lookup, hne] using ih

theorem mapAssign_length {V : Type} (m : List (String × V)) (k : String) (v : V) :
    (mapAssign m k v).length ≤ m.length + 1 := by
  simp only [mapAssign, List.length_append, List.length_singleton]
  exact Nat.add_le_add_right (List.length_filter_le _ _) 1

theorem mapAssign_under_key {V : Type} (m : List (String × V)) (k : String) (v : V) :
    (mapAssign m k v).filter (fun e => e.1 == k) = [(k, v)] := by
  simp only [mapAssign, List.filter_append, List.filter_filter]
  simp

theorem mapAssign_other_keys {V : Type} (m : List (String × V)) (k : String) (v : V) :
    (mapAssign m k v).filter (fun e => !(e.1 == k)) = m.filter (fun e => !(e.1 == k)) := by
  simp only [mapAssign, List.filter_append, List.filter_filter]
  simp

theorem mapAssign_mapAssign {V : Type} (m : List (String × V)) (k : String) (v v1 : V) :
    mapAssign (mapAssign m k v) k v1 = mapAssign m k v1 := by
  rw [mapAssign, mapAssign_other_keys, mapAssign]

theorem getStoredBuild_decoding (s : slackNotifier) (p : storedBuildPtr) (b : Build)
    (commitSha : String) :
    (getStoredBuild s (World.decoding p) b commitSha).2 = getStoredBuild_deferred p b := by
  simp [getStoredBuild, getStoredBuild_body, World.decoding]

theorem mergeAll_same_id (s : slackNotifier) (commitSha ts id : String) (bs : List Build) :
    ∀ (m : PtrMap) (last : Build), (∀ x ∈ bs, x.Id = id) → last.Id = id →
      mergeAll s commitSha { Timestamp := ts, Build := some m } (bs ++ [last])
        = .returned { Timestamp := ts, Build := some (mapAssign m id (some last)) } := by
  induction bs with
  | nil =>
    intro m last _ hl
    simp [mergeAll, getStoredBuild_decoding, getStoredBuild_deferred, hl]
  | cons b rest ih =>
    intro m last hb hl
    have hbid : b.Id = id := hb b (by simp)
    have hrest : ∀ x ∈ rest, x.Id = id := fun x hx => hb x (by simp [hx])
    simp only [List.cons_append, mergeAll, getStoredBuild_decoding, getStoredBuild_deferred]
    have step := ih (mapAssign m b.Id (some b)) last hrest hl
    rw [hbid, mapAssign_mapAssign] at step
    rw [hbid]
    exact step

/-- The merge of `getStoredBuild` on a loaded record that has its builds map: the record
returned has the stored timestamp, the incoming build stands under its id as the only
entry of that id, and every entry of another id is as stored; merging a sequence of builds
of one id leaves the last of them as the only entry of that id and at most one entry more
than before. -/
theorem getStoredBuild_replaces_by_id (s : slackNotifier) (w : World) (build : Build)
    (commitSha bytes : String) (loaded : storedBuildPtr) (m : PtrMap)
    (hread : w.newReader s.storageBucket (getStoragePath commitSha) = .ok (.ok bytes))
    (hdec : w.unmarshal bytes storedBuildPtr.zero = (loaded, none))
    (hmap : loaded.Build = some m) :
    (∃ m1, (getStoredBuild s w build commitSha).2
          = .returned { Timestamp := loaded.Timestamp, Build := some m1 }
        ∧ mapIndex m1 build.Id = some (some build)
        ∧ m1.filter (fun e => e.1 == build.Id) = [(build.Id, some build)]
        ∧ (∀ k, k ≠ build.Id → mapIndex m1 k = mapIndex m k)
        ∧ m1.filter (fun e => !(e.1 == build.Id)) = m.filter (fun e => !(e.1 == build.Id))
        ∧ m1.length ≤ m.length + 1)
    ∧ (∀ (bs : List Build) (last : Build), (∀ x ∈ bs, x.Id = last.Id) →
        ∃ m1, mergeAll s commitSha loaded (bs ++ [last])
            = .returned { Timestamp := loaded.Timestamp, Build := some m1 }
          ∧ mapIndex m1 last.Id = some (some last)
          ∧ m1.filter (fun e => e.1 == last.Id) = [(last.Id, some last)]
          ∧ (∀ k, k ≠ last.Id → mapIndex m1 k = mapIndex m k)
          ∧ m1.filter (fun e => !(e.1 == last.Id)) = m.filter (fun e => !(e.1 == last.Id))
          ∧ m1.length ≤ m.length + 1) := by
  constructor
  · refine ⟨mapAssign m build.Id (some build), ?_, ?_, mapAssign_under_key _ _ _, ?_,
      mapAssign_other_keys _ _ _, mapAssign_length _ _ _⟩
    · simp [getStoredBuild, getStoredBuild_body, hread, hdec, getStoredBuild_deferred, hmap]
    · simp [mapIndex_mapAssign]
    · intro k hk
      simp [mapIndex_mapAssign, hk]
  · intro bs last hbs
    refine ⟨mapAssign m last.Id (some last), ?_, ?_, mapAssign_under_key _ _ _, ?_,
      mapAssign_other_keys _ _ _, mapAssign_length _ _ _⟩
    · have h := mergeAll_same_id s commitSha loaded.Timestamp last.Id bs m last hbs rfl
      rw [← hmap] at h
      exact h
    · simp [mapIndex_mapAssign]
    · intro k hk
      simp [mapIndex_mapAssign, hk]

/-- C7, evaluated on a stored object that is read and decoded without error but carries no
builds map (the JSON object has a `timestamp` and no `build` key): no failure is logged,
the record loaded has the nil map, and the deferred assignment of `getStoredBuild` panics
instead of returning the record with the incoming build merged in.  With an empty builds
map in the object the same call returns the merged record. -/
theorem C7_loaded_without_builds_map_panics :
    getStoredBuild_body testNotifier
        (World.decoding { Timestamp := "1700000000.000100", Build := none }) "abc123"
      = ([Event.newReader "notifier-config" "messages/abc123",
            Event.readAll "notifier-config" "messages/abc123"],
          { Timestamp := "1700000000.000100", Build := none })
    ∧ (getStoredBuild testNotifier
        (World.decoding { Timestamp := "1700000000.000100", Build := none })
        (incoming "some-build-id1" .WORKING) "abc123").2
      = .panicked "assignment to entry in nil map"
    ∧ (SendNotification testNotifier
        (World.decoding { Timestamp := "1700000000.000100", Build := none })
        (incoming "some-build-id1" .WORKING)).2
      = .panicked "assignment to entry in nil map"
    ∧ (getStoredBuild testNotifier
        (World.decoding { Timestamp := "1700000000.000100", Build := some [] })
        (incoming "some-build-id1" .WORKING) "abc123").2
      = .returned
          { Timestamp := "1700000000.000100",
            Build := some [("some-build-id1", some (incoming "some-build-id1" .WORKING))] } := by
  refine ⟨rfl, rfl, rfl, rfl⟩

/-! ## Store miss -/

/-- C3, evaluated on a commit whose object is absent (`NewReader` fails), whose object
cannot be read (`io.ReadAll` fails) and whose object does not parse: in each case `sb` is
still the zero value with its nil map when the deferred assignment runs, and
`getStoredBuild` panics instead of returning the record of the incoming build. -/
theorem C3_store_miss_panics :
    (getStoredBuild testNotifier World.missing (incoming "some-build-id1" .WORKING) "abc123").2
        = .panicked "assignment to entry in nil map"
    ∧ (getStoredBuild testNotifier
          { World.missing with newReader := fun _ _ => .ok (.error "unexpected EOF") }
          (incoming "some-build-id1" .WORKING) "abc123").2
        = .panicked "assignment to entry in nil map"
    ∧ (getStoredBuild testNotifier
          { World.missing with newReader := fun _ _ => .ok (.ok "not json") }
          (incoming "some-build-id1" .WORKING) "abc123").2
        = .panicked "assignment to entry in nil map"
    ∧ (SendNotification testNotifier World.missing (incoming "some-build-id1" .WORKING)).2
        = .panicked "assignment to entry in nil map" := by
  refine ⟨rfl, rfl, rfl, rfl⟩

/-! ## SendNotification -/

theorem getStoredBuild_of_map (s : slackNotifier) (w : World) (build : Build)
    (commitSha : String) (pm : PtrMap)
    (hmap : (getStoredBuild_body s w commitSha).2.Build = some pm) :
    getStoredBuild s w build commitSha
      = ((getStoredBuild_body s w commitSha).1,
          .returned { Timestamp := (getStoredBuild_body s w commitSha).2.Timestamp,
                      Build := some (mapAssign pm build.Id (some build)) }) := by
  simp [getStoredBuild, getStoredBuild_deferred, hmap]

theorem deref_of_derefAll (ts : String) (pm : PtrMap) (m : BuildMap)
    (h : derefAll pm = some m) :
    ({ Timestamp := ts, Build := some pm } : storedBuildPtr).deref
      = some { Timestamp := ts, Build := some m } := by
  simp [storedBuildPtr.deref, h]

theorem deref_of_nil_entry (ts : String) (pm : PtrMap) (h : derefAll pm = none) :
    ({ Timestamp := ts, Build := some pm } : storedBuildPtr).deref = none := by
  simp [storedBuildPtr.deref, h]

theorem derefAll_eq_none_of_mem (pm : PtrMap) (k : String) (h : (k, none) ∈ pm) :
    derefAll pm = none := by
  induction pm with
  | nil => simp at h
  | cons e rest ih =>
    obtain ⟨ke, ve⟩ := e
    cases ve with
    | none => rfl
    | some b =>
      have hrest : (k, none) ∈ rest := by simpa using h
      simp [derefAll, ih hrest]

theorem body_no_message_call (s : slackNotifier) (w : World) (commitSha : String) :
    (getStoredBuild_body s w commitSha).1.filter Event.isMessageCall = [] := by
  simp only [getStoredBuild_body]
  split
  · rfl
  · rfl
  · split <;> rfl

theorem store_no_message_call (s : slackNotifier) (w : World) (commitSha timestamp : String)
    (sb : storedBuild) :
    (updateCloudStoreFile s w commitSha timestamp sb).1.filter Event.isMessageCall = [] := by
  simp only [updateCloudStoreFile, updateCloudStoreFile_deferred]
  cases w.marshal sb <;> cases w.fprint s.storageBucket (getStoragePath commitSha) sb <;>
    cases w.closeWriter s.storageBucket (getStoragePath commitSha) <;> rfl

theorem delete_no_message_call (s : slackNotifier) (w : World) (sb : storedBuild)
    (commitSha : String) :
    (deleteIfDone s w sb commitSha).1.filter Event.isMessageCall = [] := by
  simp only [deleteIfDone]
  split
  · rfl
  · cases w.delete s.storageBucket (getStoragePath commitSha) <;> rfl

theorem update_message_call (s : slackNotifier) (w : World) (sb : storedBuild) :
    (updateSlackMessage s w sb).1.filter Event.isMessageCall
      = [Event.updateMessage s.notificationChannel sb.Timestamp
          (buildAttachmentMessageOption w.addUTMParams w.renderOrder sb)] := by
  simp only [updateSlackMessage]
  split <;> rfl

theorem SendNotification_nil_entry (s : slackNotifier) (w : World) (build : Build)
    (commitSha : String) (pm : PtrMap)
    (hf : s.filter build = true) (hc : w.newClient = none)
    (hsha : mapIndex build.Substitutions commitShaSub = some commitSha)
    (hmap : (getStoredBuild_body s w commitSha).2.Build = some pm)
    (hnil : derefAll (mapAssign pm build.Id (some build)) = none) :
    SendNotification s w build
      = ([sendingEvent build] ++ (getStoredBuild_body s w commitSha).1,
          .panicked nilDereference) := by
  unfold SendNotification
  simp only [hf, hc, hsha, getStoredBuild_of_map s w build commitSha pm hmap]
  simp [deref_of_nil_entry _ _ hnil, sendingEvent]

theorem SendNotification_first_post (s : slackNotifier) (w : World) (build : Build)
    (commitSha : String) (pm : PtrMap) (m : BuildMap)
    (hf : s.filter build = true) (hc : w.newClient = none)
    (hsha : mapIndex build.Substitutions commitShaSub = some commitSha)
    (hmap : (getStoredBuild_body s w commitSha).2.Build = some pm)
    (hder : derefAll (mapAssign pm build.Id (some build)) = some m)
    (hts : (getStoredBuild_body s w commitSha).2.Timestamp = "") :
    SendNotification s w build
      = ([sendingEvent build] ++ (getStoredBuild_body s w commitSha).1
          ++ (match (w.postMessage s.notificationChannel
                (buildAttachmentMessageOption w.addUTMParams w.renderOrder
                  (mergedRecord (getStoredBuild_body s w commitSha).2 m))).2 with
              | some e =>
                [Event.postMessage s.notificationChannel
                    (buildAttachmentMessageOption w.addUTMParams w.renderOrder
                      (mergedRecord (getStoredBuild_body s w commitSha).2 m)),
                  Event.log "Unable to post initial build message to slack : %q" [e]]
              | none =>
                [Event.postMessage s.notificationChannel
                    (buildAttachmentMessageOption w.addUTMParams w.renderOrder
                      (mergedRecord (getStoredBuild_body s w commitSha).2 m))])
          ++ (updateCloudStoreFile s w commitSha
                (w.postMessage s.notificationChannel
                  (buildAttachmentMessageOption w.addUTMParams w.renderOrder
                    (mergedRecord (getStoredBuild_body s w commitSha).2 m))).1
                (mergedRecord (getStoredBuild_body s w commitSha).2 m)).1,
          .returned (updateCloudStoreFile s w commitSha
                (w.postMessage s.notificationChannel
                  (buildAttachmentMessageOption w.addUTMParams w.renderOrder
                    (mergedRecord (getStoredBuild_body s w commitSha).2 m))).1
                (mergedRecord (getStoredBuild_body s w commitSha).2 m)).2) := by
  unfold SendNotification
  simp only [hf, hc, hsha, getStoredBuild_of_map s w build commitSha pm hmap]
  simp [deref_of_derefAll _ _ _ hder, mergedRecord, hts, sendingEvent]

theorem SendNotification_update (s : slackNotifier) (w : World) (build : Build)
    (commitSha : String) (pm : PtrMap) (m : BuildMap)
    (hf : s.filter build = true) (hc : w.newClient = none)
    (hsha : mapIndex build.Substitutions commitShaSub = some commitSha)
    (hmap : (getStoredBuild_body s w commitSha).2.Build = some pm)
    (hder : derefAll (mapAssign pm build.Id (some build)) = some m)
    (hts : (getStoredBuild_body s w commitSha).2.Timestamp ≠ "") :
    SendNotification s w build
      = (match (updateCloudStoreFile s w commitSha (getStoredBuild_body s w commitSha).2.Timestamp
                (mergedRecord (getStoredBuild_body s w commitSha).2 m)).2 with
          | some e =>
            ([sendingEvent build] ++ (getStoredBuild_body s w commitSha).1
              ++ (updateSlackMessage s w
                    (mergedRecord (getStoredBuild_body s w commitSha).2 m)).1
              ++ (updateCloudStoreFile s w commitSha
                    (getStoredBuild_body s w commitSha).2.Timestamp
                    (mergedRecord (getStoredBuild_body s w commitSha).2 m)).1,
              .returned (some e))
          | none =>
            ([sendingEvent build] ++ (getStoredBuild_body s w commitSha).1
              ++ (updateSlackMessage s w
                    (mergedRecord (getStoredBuild_body s w commitSha).2 m)).1
              ++ (updateCloudStoreFile s w commitSha
                    (getStoredBuild_body s w commitSha).2.Timestamp
                    (mergedRecord (getStoredBuild_body s w commitSha).2 m)).1
              ++ (deleteIfDone s w
                    (mergedRecord (getStoredBuild_body s w commitSha).2 m) commitSha).1,
              .returned (deleteIfDone s w
                    (mergedRecord (getStoredBuild_body s w commitSha).2 m) commitSha).2)) := by
  unfold SendNotification
  simp only [hf, hc, hsha, getStoredBuild_of_map s w build commitSha pm hmap]
  simp [deref_of_derefAll _ _ _ hder, mergedRecord, hts, sendingEvent]

/-- A stored object whose builds map has a `null` entry: it is read and decoded without
error, `getStoredBuild` returns, and `SendNotification` panics in the loop of
`buildAttachmentMessageOption` before any call to the message channel or any write. -/
theorem SendNotification_null_entry_panics :
    (getStoredBuild testNotifier
        (World.decoding { Timestamp := "", Build := some [("some-build-id0", none)] })
        (incoming "some-build-id1" .WORKING) "abc123").2
      = .returned
          { Timestamp := "",
            Build := some [("some-build-id0", none),
              ("some-build-id1", some (incoming "some-build-id1" .WORKING))] }
    ∧ SendNotification testNotifier
        (World.decoding { Timestamp := "", Build := some [("some-build-id0", none)] })
        (incoming "some-build-id1" .WORKING)
      = ([sendingEvent (incoming "some-build-id1" .WORKING),
            Event.newReader "notifier-config" "messages/abc123",
            Event.readAll "notifier-config" "messages/abc123"],
          .panicked nilDereference)
    ∧ SendNotification testNotifier
        (World.decoding
          { Timestamp := "1700000000.000100", Build := some [("some-build-id0", none)] })
        (incoming "some-build-id1" .WORKING)
      = ([sendingEvent (incoming "some-build-id1" .WORKING),
            Event.newReader "notifier-config" "messages/abc123",
            Event.readAll "notifier-config" "messages/abc123"],
          .panicked nilDereference) := by
  refine ⟨rfl, rfl, rfl⟩

/-- C5, as amended: for a filter-passing event with a commit id, when the storage client is
available and the read leaves a record with a builds map in which, once the incoming build
is merged in, no entry is the nil pointer, `SendNotification` makes exactly one call to the
message channel, rendered from the merged record: a post when the loaded timestamp is
empty, otherwise an update at the loaded timestamp on the configured channel. -/
theorem C5_exactly_one_message_call (s : slackNotifier) (w : World) (build : Build)
    (commitSha : String) (pm : PtrMap) (m : BuildMap)
    (hf : s.filter build = true) (hc : w.newClient = none)
    (hsha : mapIndex build.Substitutions commitShaSub = some commitSha)
    (hmap : (getStoredBuild_body s w commitSha).2.Build = some pm)
    (hder : derefAll (mapAssign pm build.Id (some build)) = some m) :
    (getStoredBuild s w build commitSha).2
        = .returned
            { Timestamp := (getStoredBuild_body s w commitSha).2.Timestamp,
              Build := some (mapAssign pm build.Id (some build)) }
    ∧ (SendNotification s w build).1.filter Event.isMessageCall
        = [ if (getStoredBuild_body s w commitSha).2.Timestamp = "" then
              Event.postMessage s.notificationChannel
                (buildAttachmentMessageOption w.addUTMParams w.renderOrder
                  (mergedRecord (getStoredBuild_body s w commitSha).2 m))
            else
              Event.updateMessage s.notificationChannel
                (getStoredBuild_body s w commitSha).2.Timestamp
                (buildAttachmentMessageOption w.addUTMParams w.renderOrder
                  (mergedRecord (getStoredBuild_body s w commitSha).2 m)) ] := by
  refine ⟨by rw [getStoredBuild_of_map s w build commitSha pm hmap], ?_⟩
  by_cases hts : (getStoredBuild_body s w commitSha).2.Timestamp = ""
  · rw [SendNotification_first_post s w build commitSha pm m hf hc hsha hmap hder hts,
      if_pos hts]
    simp only [List.filter_append, body_no_message_call, store_no_message_call]
    split <;> rfl
  · rw [SendNotification_update s w build commitSha pm m hf hc hsha hmap hder hts, if_neg hts]
    have hu := update_message_call s w (mergedRecord (getStoredBuild_body s w commitSha).2 m)
    simp only [mergedRecord] at hu
    split <;>
      simp [List.filter_append, body_no_message_call, store_no_message_call,
        delete_no_message_call, hu, sendingEvent, Event.isMessageCall, mergedRecord]

/-- A second event of a commit whose record was posted at `1700000000.000100`: one update
at that timestamp. -/
theorem C5_exactly_one_message_call_witness :
    (SendNotification testNotifier
        (World.holding { Timestamp := "1700000000.000100", Build := some successTest_entries })
        (incoming "some-build-id2" .FAILURE)).1.filter Event.isMessageCall
      = [Event.updateMessage "C0BUILDS" "1700000000.000100"
          (buildAttachmentMessageOption (fun u => .ok u) RangeOrder.listed
            { Timestamp := "1700000000.000100",
              Build := some [(successTest_b1.Id, successTest_b1),
                ("some-build-id2", incoming "some-build-id2" .FAILURE)] })] :=
  (C5_exactly_one_message_call testNotifier
    (World.holding { Timestamp := "1700000000.000100", Build := some successTest_entries })
    (incoming "some-build-id2" .FAILURE) "abc123"
    [(successTest_b1.Id, some successTest_b1), (successTest_b2.Id, some successTest_b2)]
    [(successTest_b1.Id, successTest_b1),
      ("some-build-id2", incoming "some-build-id2" .FAILURE)]
    rfl rfl rfl rfl rfl).2

/-- C5 as stated fails when the storage client cannot be created: the event passes the
filter and has a commit id, and no call to the message channel is made. -/
theorem C5_no_message_call_without_storage_client :
    testNotifier.filter (incoming "some-build-id1" .WORKING) = true
    ∧ mapIndex (incoming "some-build-id1" .WORKING).Substitutions commitShaSub = some "abc123"
    ∧ SendNotification testNotifier
        { World.missing with newClient := some "could not find default credentials" }
        (incoming "some-build-id1" .WORKING)
      = ([Event.log "Unable to create storage client : %q"
            ["could not find default credentials"]],
          .returned (some "could not find default credentials"))
    ∧ (SendNotification testNotifier
        { World.missing with newClient := some "could not find default credentials" }
        (incoming "some-build-id1" .WORKING)).1.filter Event.isMessageCall = [] := by
  refine ⟨rfl, rfl, rfl, rfl⟩

/-- C2, evaluated on a first post: the stored record of commit `abc123` holds the WORKING
build of another region and an empty timestamp, the post succeeds and returns the timestamp
`t`, and the record written to the store still has the empty timestamp, whatever `t` is. -/
theorem C2_posted_timestamp_not_written :
    ∀ t : String,
      ({ World.holding
            { Timestamp := "",
              Build := some [("some-build-id0", incoming "some-build-id0" .WORKING)] }
          with postMessage := fun _ _ => (t, none) } : World).postMessage "C0BUILDS"
          (buildAttachmentMessageOption (fun u => .ok u) RangeOrder.listed
            { Timestamp := "",
              Build := some [("some-build-id0", incoming "some-build-id0" .WORKING),
                ("some-build-id1", incoming "some-build-id1" .WORKING)] })
        = (t, none)
      ∧ (SendNotification testNotifier
          { World.holding
              { Timestamp := "",
                Build := some [("some-build-id0", incoming "some-build-id0" .WORKING)] }
            with postMessage := fun _ _ => (t, none) }
          (incoming "some-build-id1" .WORKING)).1.filter Event.isMessageCall
        = [Event.postMessage "C0BUILDS"
            (buildAttachmentMessageOption (fun u => .ok u) RangeOrder.listed
              { Timestamp := "",
                Build := some [("some-build-id0", incoming "some-build-id0" .WORKING),
                  ("some-build-id1", incoming "some-build-id1" .WORKING)] })]
      ∧ (SendNotification testNotifier
          { World.holding
              { Timestamp := "",
                Build := some [("some-build-id0", incoming "some-build-id0" .WORKING)] }
            with postMessage := fun _ _ => (t, none) }
          (incoming "some-build-id1" .WORKING)).1.filter Event.isWrite
        = [Event.fprint "notifier-config" "messages/abc123"
            { Timestamp := "",
              Build := some [("some-build-id0", incoming "some-build-id0" .WORKING),
                ("some-build-id1", incoming "some-build-id1" .WORKING)] }]
      ∧ (SendNotification testNotifier
          { World.holding
              { Timestamp := "",
                Build := some [("some-build-id0", incoming "some-build-id0" .WORKING)] }
            with postMessage := fun _ _ => (t, none) }
          (incoming "some-build-id1" .WORKING)).2 = .returned none := by
  intro t
  refine ⟨rfl, rfl, rfl, rfl⟩

/-- C4, evaluated on the first-post branch: the stored record of commit `abc123` holds the
WORKING snapshot of build `some-build-id1` and an empty timestamp, the SUCCESS snapshot of
that build comes in, the merged record has no WORKING snapshot and is written, and no delete
is issued.  With a non-empty stored timestamp the same event takes the update branch, which
issues the delete. -/
theorem C4_first_post_never_deletes :
    (getStoredBuild testNotifier
        (World.holding
          { Timestamp := "",
            Build := some [("some-build-id1", incoming "some-build-id1" .WORKING)] })
        (incoming "some-build-id1" .SUCCESS) "abc123").2
      = .returned
          { Timestamp := "",
            Build := some [("some-build-id1", incoming "some-build-id1" .SUCCESS)] }
    ∧ (SendNotification testNotifier
        (World.holding
          { Timestamp := "",
            Build := some [("some-build-id1", incoming "some-build-id1" .WORKING)] })
        (incoming "some-build-id1" .SUCCESS)).1.filter Event.isStoreCall
      = [Event.newReader "notifier-config" "messages/abc123",
          Event.readAll "notifier-config" "messages/abc123",
          Event.fprint "notifier-config" "messages/abc123"
            { Timestamp := "",
              Build := some [("some-build-id1", incoming "some-build-id1" .SUCCESS)] },
          Event.closeWriter "notifier-config" "messages/abc123"]
    ∧ (SendNotification testNotifier
        (World.holding
          { Timestamp := "",
            Build := some [("some-build-id1", incoming "some-build-id1" .WORKING)] })
        (incoming "some-build-id1" .SUCCESS)).1.filter Event.isDelete = []
    ∧ (SendNotification testNotifier
        (World.holding
          { Timestamp := "1700000000.000100",
            Build := some [("some-build-id1", incoming "some-build-id1" .WORKING)] })
        (incoming "some-build-id1" .SUCCESS)).1.filter Event.isStoreCall
      = [Event.newReader "notifier-config" "messages/abc123",
          Event.readAll "notifier-config" "messages/abc123",
          Event.fprint "notifier-config" "messages/abc123"
            { Timestamp := "1700000000.000100",
              Build := some [("some-build-id1", incoming "some-build-id1" .SUCCESS)] },
          Event.closeWriter "notifier-config" "messages/abc123",
          Event.delete "notifier-config" "messages/abc123"] := by
  refine ⟨rfl, rfl, rfl, rfl⟩

theorem store_result (s : slackNotifier) (w : World) (commitSha timestamp : String)
    (sb : storedBuild) :
    (updateCloudStoreFile s w commitSha timestamp sb).2 = w.marshal sb := by
  simp only [updateCloudStoreFile]
  cases h1 : w.marshal sb with
  | some e => rfl
  | none => cases h2 : w.fprint s.storageBucket (getStoragePath commitSha) sb <;> rfl

theorem store_logs_fprint (s : slackNotifier) (w : World) (commitSha timestamp : String)
    (sb : storedBuild) (e : String) (hm : w.marshal sb = none)
    (hw : w.fprint s.storageBucket (getStoragePath commitSha) sb = some e) :
    Event.log "Unable to write to cloud storage : %q" [e]
      ∈ (updateCloudStoreFile s w commitSha timestamp sb).1 := by
  simp [updateCloudStoreFile, hm, hw]

theorem body_logs_unmarshal (s : slackNotifier) (w : World) (commitSha bytes e : String)
    (sb1 : storedBuildPtr)
    (hread : w.newReader s.storageBucket (getStoragePath commitSha) = .ok (.ok bytes))
    (hdec : w.unmarshal bytes storedBuildPtr.zero = (sb1, some e)) :
    Event.log "Unable to unmarshal json : %q" [e] ∈ (getStoredBuild_body s w commitSha).1 := by
  simp [getStoredBuild_body, hread, hdec]

theorem update_logs (s : slackNotifier) (w : World) (sb : storedBuild) (e : String)
    (hu : w.updateMessage s.notificationChannel sb.Timestamp
      (buildAttachmentMessageOption w.addUTMParams w.renderOrder sb) = some e) :
    Event.log "Unable to update slack message : %q" [e] ∈ (updateSlackMessage s w sb).1 := by
  simp [updateSlackMessage, hu]

theorem deleteIfDone_working (s : slackNotifier) (w : World) (sb : storedBuild)
    (commitSha : String) (h : ∃ e ∈ sb.entries, e.2.Status = Build_Status.WORKING) :
    deleteIfDone s w sb commitSha = ([], none) := by
  obtain ⟨e, he, hs⟩ := h
  simp only [deleteIfDone]
  rw [if_pos]
  simp only [List.any_eq_true, decide_eq_true_eq]
  exact ⟨e, (w.deleteOrder.perm _).symm.subset he, hs⟩

theorem deleteIfDone_done (s : slackNotifier) (w : World) (sb : storedBuild)
    (commitSha : String) (h : ∀ e ∈ sb.entries, e.2.Status ≠ Build_Status.WORKING) :
    (deleteIfDone s w sb commitSha).2 = w.delete s.storageBucket (getStoragePath commitSha)
    ∧ Event.delete s.storageBucket (getStoragePath commitSha) ∈ (deleteIfDone s w sb commitSha).1
    ∧ ∀ e, w.delete s.storageBucket (getStoragePath commitSha) = some e →
        Event.log "Error deleting the object: %q" [e] ∈ (deleteIfDone s w sb commitSha).1 := by
  simp only [deleteIfDone]
  rw [if_neg]
  · cases hd : w.delete s.storageBucket (getStoragePath commitSha) <;> simp
  · simp only [List.any_eq_true, decide_eq_true_eq, not_exists, not_and]
    intro e he
    exact h e ((w.deleteOrder.perm _).subset he)

theorem store_logs_close (s : slackNotifier) (w : World) (commitSha timestamp : String)
    (sb : storedBuild) (e : String)
    (hcl : w.closeWriter s.storageBucket (getStoragePath commitSha) = some e) :
    Event.log "Error closing the writer: %q" [e]
      ∈ (updateCloudStoreFile s w commitSha timestamp sb).1 := by
  simp only [updateCloudStoreFile, updateCloudStoreFile_deferred, hcl]
  cases w.marshal sb with
  | some em => simp
  | none => cases w.fprint s.storageBucket (getStoragePath commitSha) sb <;> simp

/-- C8, as amended: for a filter-passing event, when the storage client is available and
(for an event with a commit id) the read leaves a record with a builds map in which, once
the incoming build is merged in, no entry is the nil pointer, `SendNotification` returns,
and the value returned is an error exactly when the event has no COMMIT_SHA substitution,
or the encoding of the merged record fails, or the loaded timestamp is non-empty, no
snapshot of the merged record is WORKING and the store delete fails.  Without COMMIT_SHA no
call to the store or the message channel is made.  A failure of the decoding, the post, the
update, the write or the closing of the writer is logged and is not returned; a failure of
the delete is logged and returned. -/
theorem C8_returned_error_iff (s : slackNotifier) (w : World) (build : Build)
    (hf : s.filter build = true) (hc : w.newClient = none)
    (hmap : ∀ c, mapIndex build.Substitutions commitShaSub = some c →
      ∃ pm m, (getStoredBuild_body s w c).2.Build = some pm
        ∧ derefAll (mapAssign pm build.Id (some build)) = some m) :
    ∃ err, (SendNotification s w build).2 = .returned err
      ∧ (err.isSome = true ↔
          mapIndex build.Substitutions commitShaSub = none
          ∨ ∃ c pm m, mapIndex build.Substitutions commitShaSub = some c
              ∧ (getStoredBuild_body s w c).2.Build = some pm
              ∧ derefAll (mapAssign pm build.Id (some build)) = some m
              ∧ ((w.marshal (mergedRecord (getStoredBuild_body s w c).2 m)).isSome = true
                ∨ ((getStoredBuild_body s w c).2.Timestamp ≠ ""
                  ∧ (∀ e ∈ (mergedRecord (getStoredBuild_body s w c).2 m).entries,
                      e.2.Status ≠ Build_Status.WORKING)
                  ∧ (w.delete s.storageBucket (getStoragePath c)).isSome = true)))
      ∧ (mapIndex build.Substitutions commitShaSub = none →
          ∀ e ∈ (SendNotification s w build).1, e.isStoreCall = false ∧ e.isMessageCall = false)
      ∧ (∀ c pm m, mapIndex build.Substitutions commitShaSub = some c →
          (getStoredBuild_body s w c).2.Build = some pm →
          derefAll (mapAssign pm build.Id (some build)) = some m →
          (∀ bytes e sb1, w.newReader s.storageBucket (getStoragePath c) = .ok (.ok bytes) →
              w.unmarshal bytes storedBuildPtr.zero = (sb1, some e) →
              Event.log "Unable to unmarshal json : %q" [e] ∈ (SendNotification s w build).1)
          ∧ ((getStoredBuild_body s w c).2.Timestamp = "" →
              ∀ e, (w.postMessage s.notificationChannel
                  (buildAttachmentMessageOption w.addUTMParams w.renderOrder
                    (mergedRecord (getStoredBuild_body s w c).2 m))).2 = some e →
              Event.log "Unable to post initial build message to slack : %q" [e]
                ∈ (SendNotification s w build).1)
          ∧ ((getStoredBuild_body s w c).2.Timestamp ≠ "" →
              ∀ e, w.updateMessage s.notificationChannel (getStoredBuild_body s w c).2.Timestamp
                  (buildAttachmentMessageOption w.addUTMParams w.renderOrder
                    (mergedRecord (getStoredBuild_body s w c).2 m)) = some e →
              Event.log "Unable to update slack message : %q" [e]
                ∈ (SendNotification s w build).1)
          ∧ (w.marshal (mergedRecord (getStoredBuild_body s w c).2 m) = none →
              ∀ e, w.fprint s.storageBucket (getStoragePath c)
                  (mergedRecord (getStoredBuild_body s w c).2 m) = some e →
              Event.log "Unable to write to cloud storage : %q" [e]
                ∈ (SendNotification s w build).1)
          ∧ (∀ e, w.closeWriter s.storageBucket (getStoragePath c) = some e →
              Event.log "Error closing the writer: %q" [e] ∈ (SendNotification s w build).1)
          ∧ ((getStoredBuild_body s w c).2.Timestamp ≠ "" →
              w.marshal (mergedRecord (getStoredBuild_body s w c).2 m) = none →
              (∀ e ∈ (mergedRecord (getStoredBuild_body s w c).2 m).entries,
                e.2.Status ≠ Build_Status.WORKING) →
              ∀ e, w.delete s.storageBucket (getStoragePath c) = some e →
              err = some e ∧
              Event.log "Error deleting the object: %q" [e] ∈ (SendNotification s w build).1)) := by
  cases hsha : mapIndex build.Substitutions commitShaSub with
  | none =>
    have hS : SendNotification s w build = ([], .returned (some ("Unknown " ++ commitShaSub))) := by
      simp [SendNotification, hf, hc, hsha]
    rw [hS]
    refine ⟨_, rfl, ?_, ?_, ?_⟩
    · simp
    · intro _ e he
      simp at he
    · intro c pm m hcm
      simp at hcm
  | some c0 =>
    obtain ⟨pm0, m0, hm0, hd0⟩ := hmap c0 hsha
    by_cases hts : (getStoredBuild_body s w c0).2.Timestamp = ""
    · rw [SendNotification_first_post s w build c0 pm0 m0 hf hc hsha hm0 hd0 hts]
      refine ⟨_, rfl, ?_, ?_, ?_⟩
      · rw [store_result]
        constructor
        · intro h
          exact Or.inr ⟨c0, pm0, m0, rfl, hm0, hd0, Or.inl h⟩
        · rintro (h | ⟨c, pm, m, hcm, hm, hd, h⟩)
          · simp at h
          · have hc0 : c0 = c := by simpa using hcm
            subst hc0
            have hpm : pm0 = pm := by rw [hm0] at hm; simpa using hm
            subst hpm
            have hmm : m0 = m := by rw [hd0] at hd; simpa using hd
            subst hmm
            rcases h with h | ⟨h, _⟩
            · exact h
            · exact absurd hts h
      · intro h
        simp at h
      · intro c pm m hcm hm hd
        have hc0 : c0 = c := by simpa using hcm
        subst hc0
        have hpm : pm0 = pm := by rw [hm0] at hm; simpa using hm
        subst hpm
        have hmm : m0 = m := by rw [hd0] at hd; simpa using hd
        subst hmm
        refine ⟨?_, ?_, ?_, ?_, ?_, ?_⟩
        · intro bytes e sb1 hread hdec
          have := body_logs_unmarshal s w c0 bytes e sb1 hread hdec
          simp [this]
        · intro _ e he
          simp [he]
        · intro h
          exact absurd hts h
        · intro hmar e he
          have := store_logs_fprint s w c0
            (w.postMessage s.notificationChannel
              (buildAttachmentMessageOption w.addUTMParams w.renderOrder
                (mergedRecord (getStoredBuild_body s w c0).2 m0))).1
            (mergedRecord (getStoredBuild_body s w c0).2 m0) e hmar he
          simp [this]
        · intro e he
          have := store_logs_close s w c0
            (w.postMessage s.notificationChannel
              (buildAttachmentMessageOption w.addUTMParams w.renderOrder
                (mergedRecord (getStoredBuild_body s w c0).2 m0))).1
            (mergedRecord (getStoredBuild_body s w c0).2 m0) e he
          simp [this]
        · intro h
          exact absurd hts h
    · have hS := SendNotification_update s w build c0 pm0 m0 hf hc hsha hm0 hd0 hts
      rw [store_result] at hS
      cases hmar : w.marshal (mergedRecord (getStoredBuild_body s w c0).2 m0) with
      | some em =>
        rw [hmar] at hS
        simp only at hS
        rw [hS]
        refine ⟨_, rfl, ?_, ?_, ?_⟩
        · constructor
          · intro _
            exact Or.inr ⟨c0, pm0, m0, rfl, hm0, hd0, Or.inl (by simp [hmar])⟩
          · intro _
            rfl
        · intro h
          simp at h
        · intro c pm m hcm hm hd
          have hc0 : c0 = c := by simpa using hcm
          subst hc0
          have hpm : pm0 = pm := by rw [hm0] at hm; simpa using hm
          subst hpm
          have hmm : m0 = m := by rw [hd0] at hd; simpa using hd
          subst hmm
          refine ⟨?_, ?_, ?_, ?_, ?_, ?_⟩
          · intro bytes e sb1 hread hdec
            have := body_logs_unmarshal s w c0 bytes e sb1 hread hdec
            simp [this]
          · intro h
            exact absurd h hts
          · intro _ e he
            have := update_logs s w (mergedRecord (getStoredBuild_body s w c0).2 m0) e he
            simp [this]
          · intro h
            simp [hmar] at h
          · intro e he
            have := store_logs_close s w c0 (getStoredBuild_body s w c0).2.Timestamp
              (mergedRecord (getStoredBuild_body s w c0).2 m0) e he
            simp [this]
          · intro _ h
            simp [hmar] at h
      | none =>
        rw [hmar] at hS
        simp only at hS
        rw [hS]
        refine ⟨_, rfl, ?_, ?_, ?_⟩
        · constructor
          · intro h
            refine Or.inr ⟨c0, pm0, m0, rfl, hm0, hd0, Or.inr ⟨hts, ?_, ?_⟩⟩
            · intro e he hw
              rw [deleteIfDone_working s w _ c0 ⟨e, he, hw⟩] at h
              simp at h
            · by_cases hw : ∃ e ∈ (mergedRecord (getStoredBuild_body s w c0).2 m0).entries,
                  e.2.Status = Build_Status.WORKING
              · rw [deleteIfDone_working s w _ c0 hw] at h
                simp at h
              · have hall : ∀ e ∈ (mergedRecord (getStoredBuild_body s w c0).2 m0).entries,
                    e.2.Status ≠ Build_Status.WORKING := fun e he hs => hw ⟨e, he, hs⟩
                rw [(deleteIfDone_done s w _ c0 hall).1] at h
                exact h
          · rintro (h | ⟨c, pm, m, hcm, hm, hd, h⟩)
            · simp at h
            · have hc0 : c0 = c := by simpa using hcm
              subst hc0
              have hpm : pm0 = pm := by rw [hm0] at hm; simpa using hm
              subst hpm
              have hmm : m0 = m := by rw [hd0] at hd; simpa using hd
              subst hmm
              rcases h with h | ⟨_, hall, hd⟩
              · simp [hmar] at h
              · rw [(deleteIfDone_done s w _ c0 hall).1]
                exact hd
        · intro h
          simp at h
        · intro c pm m hcm hm hd
          have hc0 : c0 = c := by simpa using hcm
          subst hc0
          have hpm : pm0 = pm := by rw [hm0] at hm; simpa using hm
          subst hpm
          have hmm : m0 = m := by rw [hd0] at hd; simpa using hd
          subst hmm
          refine ⟨?_, ?_, ?_, ?_, ?_, ?_⟩
          · intro bytes e sb1 hread hdec
            have := body_logs_unmarshal s w c0 bytes e sb1 hread hdec
            simp [this]
          · intro h
            exact absurd h hts
          · intro _ e he
            have := update_logs s w (mergedRecord (getStoredBuild_body s w c0).2 m0) e he
            simp [this]
          · intro _ e he
            have := store_logs_fprint s w c0 (getStoredBuild_body s w c0).2.Timestamp
              (mergedRecord (getStoredBuild_body s w c0).2 m0) e hmar he
            simp [this]
          · intro e he
            have := store_logs_close s w c0 (getStoredBuild_body s w c0).2.Timestamp
              (mergedRecord (getStoredBuild_body s w c0).2 m0) e he
            simp [this]
          · intro _ _ hall e he
            obtain ⟨h1, _, h3⟩ := deleteIfDone_done s w _ c0 hall
            refine ⟨by rw [h1, he], ?_⟩
            have := h3 e he
            simp [this]

/-- A second event of a posted commit while both the update of the message and the write of
the record fail: `SendNotification` returns, and both failures are logged. -/
theorem C8_returned_error_iff_witness :
    ∃ err, (SendNotification testNotifier
        { World.holding { Timestamp := "1700000000.000100", Build := some successTest_entries }
          with updateMessage := fun _ _ _ => some "channel_not_found",
               fprint := fun _ _ _ => some "googleapi: Error 503" }
        (incoming "some-build-id2" .WORKING)).2 = .returned err
      ∧ Event.log "Unable to update slack message : %q" ["channel_not_found"]
          ∈ (SendNotification testNotifier
              { World.holding
                  { Timestamp := "1700000000.000100", Build := some successTest_entries }
                with updateMessage := fun _ _ _ => some "channel_not_found",
                     fprint := fun _ _ _ => some "googleapi: Error 503" }
              (incoming "some-build-id2" .WORKING)).1
      ∧ Event.log "Unable to write to cloud storage : %q" ["googleapi: Error 503"]
          ∈ (SendNotification testNotifier
              { World.holding
                  { Timestamp := "1700000000.000100", Build := some successTest_entries }
                with updateMessage := fun _ _ _ => some "channel_not_found",
                     fprint := fun _ _ _ => some "googleapi: Error 503" }
              (incoming "some-build-id2" .WORKING)).1 := by
  obtain ⟨err, h1, _, _, h4⟩ := C8_returned_error_iff testNotifier
    { World.holding { Timestamp := "1700000000.000100", Build := some successTest_entries }
      with updateMessage := fun _ _ _ => some "channel_not_found",
           fprint := fun _ _ _ => some "googleapi: Error 503" }
    (incoming "some-build-id2" .WORKING) rfl rfl
    (fun _ _ =>
      ⟨[(successTest_b1.Id, some successTest_b1), (successTest_b2.Id, some successTest_b2)],
        [(successTest_b1.Id, successTest_b1),
          ("some-build-id2", incoming "some-build-id2" .WORKING)], rfl, rfl⟩)
  obtain ⟨_, _, h43, h44, _⟩ := h4 "abc123"
    [(successTest_b1.Id, some successTest_b1), (successTest_b2.Id, some successTest_b2)]
    [(successTest_b1.Id, successTest_b1),
      ("some-build-id2", incoming "some-build-id2" .WORKING)] rfl rfl rfl
  exact ⟨err, h1, h43 (by decide) "channel_not_found" rfl, h44 rfl "googleapi: Error 503" rfl⟩

/-- C8 as stated fails when the store delete fails: the event passes the filter, the storage
client is available, the event has its COMMIT_SHA substitution, and `SendNotification`
returns the error of the delete. -/
theorem C8_delete_failure_is_returned :
    testNotifier.filter (incoming "some-build-id1" .SUCCESS) = true
    ∧ mapIndex (incoming "some-build-id1" .SUCCESS).Substitutions commitShaSub = some "abc123"
    ∧ ({ World.holding { Timestamp := "1700000000.000100", Build := some [] }
          with delete := fun _ _ => some "googleapi: Error 403: Forbidden" } : World).newClient
        = none
    ∧ (SendNotification testNotifier
        { World.holding { Timestamp := "1700000000.000100", Build := some [] }
          with delete := fun _ _ => some "googleapi: Error 403: Forbidden" }
        (incoming "some-build-id1" .SUCCESS)).2
      = .returned (some "googleapi: Error 403: Forbidden") := by
  refine ⟨rfl, rfl, rfl, rfl⟩

end SlackNotifier

